import Mathlib

/-!
Verification development for the SQLproxyEx mediation core.

The Python services under `backend/app/services/` (query_analyzer.py,
rate_limiter.py, sql_proxy.py) are shallowly embedded below: queries are
`List Char`, dictionaries are association lists, machine integers are `Nat`
with explicit reduction modulo 2^32 where the source relies on 32-bit
wrap-around (SHA-256), and Python exceptions become explicit branches or
`Except` values.  Each definition's doc comment names the Python function it
translates.
-/

set_option maxRecDepth 100000

namespace SQLProxyEx

/-- Python's `\s` class restricted to ASCII: space, tab, newline, carriage
return, form feed, vertical tab.  All queries in scope are ASCII. -/
def isSpaceCh (c : Char) : Bool :=
  c.toNat = 32 || c.toNat = 9 || c.toNat = 10 || c.toNat = 13 ||
  c.toNat = 12 || c.toNat = 11

/-- Python's `\w` class restricted to ASCII: letters, digits, underscore. -/
def isWordCh (c : Char) : Bool :=
  (48 ≤ c.toNat && c.toNat ≤ 57) || (65 ≤ c.toNat && c.toNat ≤ 90) ||
  (97 ≤ c.toNat && c.toNat ≤ 122) || c.toNat = 95

/-- ASCII letter or underscore: the characters that can start an identifier
token in the lexer model below. -/
def isIdentStartCh (c : Char) : Bool :=
  (65 ≤ c.toNat && c.toNat ≤ 90) || (97 ≤ c.toNat && c.toNat ≤ 122) ||
  c.toNat = 95

/-- ASCII decimal digit. -/
def isDigitCh (c : Char) : Bool := 48 ≤ c.toNat && c.toNat ≤ 57

/-- ASCII lower-casing, as Python `str.lower` acts on ASCII. -/
def lowerCh (c : Char) : Char :=
  if 65 ≤ c.toNat && c.toNat ≤ 90 then Char.ofNat (c.toNat + 32) else c

/-- ASCII upper-casing, as Python `str.upper` acts on ASCII. -/
def upperCh (c : Char) : Char :=
  if 97 ≤ c.toNat && c.toNat ≤ 122 then Char.ofNat (c.toNat - 32) else c

/-- The single-quote character, written by code point to keep the source
free of quote literals. -/
def quoteCh : Char := Char.ofNat 39

/-- Lower-case a whole token. -/
def lowerStr (s : List Char) : List Char := s.map lowerCh

/-- Upper-case a whole token. -/
def upperStr (s : List Char) : List Char := s.map upperCh

/-- Helper for `splitWs`: accumulates the current chunk (reversed). -/
def splitWsAux : List Char → List Char → List (List Char)
  | [], acc => if acc.isEmpty then [] else [acc.reverse]
  | c :: t, acc =>
    if isSpaceCh c then
      if acc.isEmpty then splitWsAux t [] else acc.reverse :: splitWsAux t []
    else splitWsAux t (c :: acc)

/-- The maximal whitespace-free chunks of a string, in order.  Used to model
`re.sub(r'\s+', ' ', q)` followed by `q.strip()` in `_clean_query`: that
substitution joins exactly these chunks with single spaces. -/
def splitWs (s : List Char) : List (List Char) := splitWsAux s []

/-- Join chunks with single spaces. -/
def joinSp : List (List Char) → List Char
  | [] => []
  | [c] => c
  | c :: c2 :: t => c ++ Char.ofNat 32 :: joinSp (c2 :: t)

/-- Models `re.sub(r'--.*$', '', query, flags=re.MULTILINE)` in
`QueryAnalyzer._clean_query`: from each occurrence of `--` everything up to
(but not including) the next newline is removed.  The first argument is true
while inside a line comment. -/
def stripLineComments : Bool → List Char → List Char
  | _, [] => []
  | true, c :: t =>
    if c.toNat = 10 then c :: stripLineComments false t
    else stripLineComments true t
  | false, [c] => [c]
  | false, c :: c2 :: t2 =>
    if c.toNat = 45 && c2.toNat = 45 then stripLineComments true t2
    else c :: stripLineComments false (c2 :: t2)

/-- Scan for the first `*/`; on success return the remainder after it (the
non-greedy `.*?` of the block-comment regex). -/
def dropThroughClose : List Char → Option (List Char)
  | [] => none
  | [_] => none
  | c :: c2 :: t2 =>
    if c.toNat = 42 && c2.toNat = 47 then some t2
    else dropThroughClose (c2 :: t2)

/-- Fuelled scanner for `stripBlockComments`; the fuel (at least the input
length at the top call) only makes the recursion structural, since the scan
resumes after each removed comment. -/
def sbcFuel : Nat → List Char → List Char
  | 0, s => s
  | _ + 1, [] => []
  | _ + 1, [c] => [c]
  | fuel + 1, c :: c2 :: t2 =>
    if c.toNat = 47 && c2.toNat = 42 then
      match dropThroughClose t2 with
      | some rest => sbcFuel fuel rest
      | none => c :: c2 :: t2
    else c :: sbcFuel fuel (c2 :: t2)

/-- Models `re.sub(r'/\*.*?\*/', '', query, flags=re.DOTALL)` in
`QueryAnalyzer._clean_query`: each `/*` with a later `*/` is removed together
with everything in between (shortest match); a `/*` without a closing `*/`
does not match the regex and is kept verbatim. -/
def stripBlockComments (s : List Char) : List Char := sbcFuel s.length s

/-- `QueryAnalyzer._clean_query`: strip `--` line comments, strip `/* */`
block comments (in that order, as the two `re.sub` calls run in sequence),
then collapse every whitespace run to a single space and strip the ends.
The last two steps — `re.sub(r'\s+', ' ', q)` then `.strip()` — produce
exactly the whitespace-free chunks joined by single spaces. -/
def clean_query (q : List Char) : List Char :=
  joinSp (splitWs (stripBlockComments (stripLineComments false q)))

/-- Keywords that the sqlparse lexer tags `Token.Keyword.DML`
(sqlparse `keywords.KEYWORDS_COMMON`). -/
def dmlKeywords : List (List Char) :=
  ["SELECT".data, "INSERT".data, "UPDATE".data, "DELETE".data,
   "UPSERT".data, "REPLACE".data, "MERGE".data]

/-- Keywords that the sqlparse lexer tags `Token.Keyword.DDL`. -/
def ddlKeywords : List (List Char) :=
  ["CREATE".data, "DROP".data, "ALTER".data, "TRUNCATE".data]

/-- Keywords that the sqlparse lexer tags plain `Token.Keyword`.  A
representative subset of sqlparse's keyword table containing every keyword
used by the concrete queries in this development. -/
def plainKeywords : List (List Char) :=
  ["FROM".data, "WHERE".data, "AND".data, "OR".data, "NOT".data,
   "NULL".data, "JOIN".data, "INNER".data, "LEFT".data, "RIGHT".data,
   "FULL".data, "OUTER".data, "ON".data, "AS".data, "ORDER".data,
   "GROUP".data, "BY".data, "HAVING".data, "LIMIT".data, "OFFSET".data,
   "UNION".data, "ALL".data, "DISTINCT".data, "INTO".data, "VALUES".data,
   "SET".data, "TABLE".data, "INDEX".data, "VIEW".data, "EXISTS".data,
   "IN".data, "IS".data, "LIKE".data, "BETWEEN".data, "CASE".data,
   "WHEN".data, "THEN".data, "ELSE".data, "END".data, "GRANT".data,
   "REVOKE".data, "EXEC".data, "EXECUTE".data, "WAITFOR".data]

/-- A word is any keyword (of any sqlparse keyword kind). -/
def isKeywordWord (w : List Char) : Bool :=
  dmlKeywords.contains (upperStr w) || ddlKeywords.contains (upperStr w) ||
  plainKeywords.contains (upperStr w)

/-- Emit a buffered word token (held in reverse) with the casing that
`sqlparse.format(keyword_case='upper', identifier_case='lower')` applies:
digit-led tokens (numeric literals) verbatim, keywords upper-cased, other
identifier-led tokens lower-cased. -/
def flushWord (accRev : List Char) : List Char :=
  match accRev.reverse with
  | [] => []
  | c :: w =>
    if isDigitCh c then c :: w
    else if isKeywordWord (c :: w) then upperStr (c :: w)
    else lowerStr (c :: w)

/-- Scanner for `formatSql`.  First argument: inside a single-quoted string
literal (whose characters pass through verbatim).  Second argument: the
current word token, in reverse; it is empty whenever the literal flag is
set.  Word tokens are maximal runs of `\w` characters; everything else —
whitespace, operators, punctuation — passes through unchanged. -/
def scanSt : Bool → List Char → List Char → List Char
  | _, accRev, [] => flushWord accRev
  | true, _, c :: t =>
    if c = quoteCh then c :: scanSt false [] t else c :: scanSt true [] t
  | false, accRev, c :: t =>
    if isWordCh c then scanSt false (c :: accRev) t
    else if c = quoteCh then flushWord accRev ++ (c :: scanSt true [] t)
    else flushWord accRev ++ (c :: scanSt false [] t)

/-- Models `sqlparse.format(query, keyword_case='upper',
identifier_case='lower', strip_comments=True, reindent=False)` as used by
`QueryAnalyzer._normalize_query`, applied to an already comment-free input
(`_clean_query` runs first): identifier-led tokens are upper-cased when they
are SQL keywords and lower-cased otherwise, digit-led tokens and
single-quoted string literals are kept verbatim, and every other character
(whitespace, operators, punctuation) passes through unchanged. -/
def formatSql (s : List Char) : List Char := scanSt false [] s

/-- Strip leading and trailing whitespace (Python `.strip()`). -/
def stripEnds (s : List Char) : List Char :=
  ((s.dropWhile isSpaceCh).reverse.dropWhile isSpaceCh).reverse

/-- `QueryAnalyzer._normalize_query`: format via sqlparse then strip. -/
def normalize_query (q : List Char) : List Char := stripEnds (formatSql q)

/-- The fully normalized text whose hash is the query fingerprint:
`_normalize_query(_clean_query(query))`, exactly as `analyze_query`
computes `metadata["normalized_query"]`. -/
def normalizedOf (q : List Char) : List Char := normalize_query (clean_query q)

/-! ## SHA-256

`QueryAnalyzer._generate_query_hash` returns
`hashlib.sha256(query.encode()).hexdigest()`.  The hash is implemented here
over byte lists, with 32-bit words as `Nat` reduced modulo `2 ^ 32`. -/

/-- UTF-8 encoding of one character (Python `str.encode()`). -/
def utf8Char (c : Char) : List Nat :=
  let n := c.toNat
  if n < 128 then [n]
  else if n < 2048 then [192 + n / 64, 128 + n % 64]
  else if n < 65536 then [224 + n / 4096, 128 + n / 64 % 64, 128 + n % 64]
  else [240 + n / 262144, 128 + n / 4096 % 64, 128 + n / 64 % 64, 128 + n % 64]

/-- UTF-8 encoding of a string (Python `str.encode()`). -/
def utf8Bytes (s : List Char) : List Nat := s.flatMap utf8Char

/-- Reduce to a 32-bit word. -/
def u32 (n : Nat) : Nat := n % 4294967296

/-- 32-bit right rotation. -/
def rotr (k n : Nat) : Nat := u32 ((n >>> k) ||| (n <<< (32 - k)))

/-- SHA-256 small sigma 0. -/
def ssig0 (x : Nat) : Nat := (rotr 7 x) ^^^ (rotr 18 x) ^^^ (x >>> 3)

/-- SHA-256 small sigma 1. -/
def ssig1 (x : Nat) : Nat := (rotr 17 x) ^^^ (rotr 19 x) ^^^ (x >>> 10)

/-- SHA-256 big sigma 0. -/
def bsig0 (x : Nat) : Nat := (rotr 2 x) ^^^ (rotr 13 x) ^^^ (rotr 22 x)

/-- SHA-256 big sigma 1. -/
def bsig1 (x : Nat) : Nat := (rotr 6 x) ^^^ (rotr 11 x) ^^^ (rotr 25 x)

/-- The 64 SHA-256 round constants (FIPS 180-4), written in decimal. -/
def shaK : List Nat :=
  [1116352408, 1899447441, 3049323471, 3921009573, 961987163, 1508970993,
   2453635748, 2870763221, 3624381080, 310598401, 607225278, 1426881987,
   1925078388, 2162078206, 2614888103, 3248222580, 3835390401, 4022224774,
   264347078, 604807628, 770255983, 1249150122, 1555081692, 1996064986,
   2554220882, 2821834349, 2952996808, 3210313671, 3336571891, 3584528711,
   113926993, 338241895, 666307205, 773529912, 1294757372, 1396182291,
   1695183700, 1986661051, 2177026350, 2456956037, 2730485921, 2820302411,
   3259730800, 3345764771, 3516065817, 3600352804, 4094571909, 275423344,
   430227734, 506948616, 659060556, 883997877, 958139571, 1322822218,
   1537002063, 1747873779, 1955562222, 2024104815, 2227730452, 2361852424,
   2428436474, 2756734187, 3204031479, 3329325298]

/-- The eight initial SHA-256 hash words (FIPS 180-4), in decimal. -/
def shaH0 : List Nat :=
  [1779033703, 3144134277, 1013904242, 2773480762,
   1359893119, 2600822924, 528734635, 1541459225]

/-- Append the message padding: a `0x80` byte, zeros to 56 mod 64, and the
bit length as eight big-endian bytes. -/
def shaPad (msg : List Nat) : List Nat :=
  let len := msg.length
  let zeros := (119 - len % 64) % 64
  let bitLen := 8 * len
  msg ++ [128] ++ List.replicate zeros 0 ++
    [bitLen / 72057594037927936 % 256, bitLen / 281474976710656 % 256,
     bitLen / 1099511627776 % 256, bitLen / 4294967296 % 256,
     bitLen / 16777216 % 256, bitLen / 65536 % 256,
     bitLen / 256 % 256, bitLen % 256]

/-- Split a list into chunks of the given size. -/
def chunksOf (k : Nat) : Nat → List Nat → List (List Nat)
  | 0, _ => []
  | _, [] => []
  | fuel + 1, l => l.take k :: chunksOf k fuel (l.drop k)

/-- Big-endian 32-bit words from groups of four bytes. -/
def bytesToWords : Nat → List Nat → List Nat
  | 0, _ => []
  | _, [] => []
  | fuel + 1, l =>
    (l.take 4).foldl (fun a b => a * 256 + b) 0 :: bytesToWords fuel (l.drop 4)

/-- Extend a 16-word block to the 64-word message schedule. -/
def extendW : Nat → List Nat → List Nat
  | 0, w => w
  | fuel + 1, w =>
    let n := w.length
    extendW fuel (w ++ [u32 (w.getD (n - 16) 0 + ssig0 (w.getD (n - 15) 0) +
      w.getD (n - 7) 0 + ssig1 (w.getD (n - 2) 0))])

/-- The eight 32-bit working registers of the compression loop. -/
structure ShaRegs where
  a : Nat
  b : Nat
  c : Nat
  d : Nat
  e : Nat
  f : Nat
  g : Nat
  h : Nat

/-- One round of the compression loop. -/
def shaRound (r : ShaRegs) (wk : Nat × Nat) : ShaRegs :=
  let t1 := u32 (r.h + bsig1 r.e + ((r.e &&& r.f) ^^^ ((2 ^ 32 - 1 - r.e) &&& r.g)) +
    wk.2 + wk.1)
  let t2 := u32 (bsig0 r.a + ((r.a &&& r.b) ^^^ (r.a &&& r.c) ^^^ (r.b &&& r.c)))
  { a := u32 (t1 + t2), b := r.a, c := r.b, d := r.c,
    e := u32 (r.d + t1), f := r.e, g := r.f, h := r.g }

/-- Process one 64-byte block, updating the eight-word hash state. -/
def shaBlock (hst : List Nat) (block : List Nat) : List Nat :=
  let w := extendW 48 (bytesToWords 16 block)
  let init : ShaRegs :=
    { a := hst.getD 0 0, b := hst.getD 1 0, c := hst.getD 2 0, d := hst.getD 3 0,
      e := hst.getD 4 0, f := hst.getD 5 0, g := hst.getD 6 0, h := hst.getD 7 0 }
  let r := (w.zip shaK).foldl shaRound init
  [u32 (hst.getD 0 0 + r.a), u32 (hst.getD 1 0 + r.b), u32 (hst.getD 2 0 + r.c),
   u32 (hst.getD 3 0 + r.d), u32 (hst.getD 4 0 + r.e), u32 (hst.getD 5 0 + r.f),
   u32 (hst.getD 6 0 + r.g), u32 (hst.getD 7 0 + r.h)]

/-- SHA-256 of a byte list: the eight final hash words. -/
def sha256Words (msg : List Nat) : List Nat :=
  let padded := shaPad msg
  (chunksOf 64 (padded.length) padded).foldl shaBlock shaH0

/-- Lower-case hexadecimal digit. -/
def hexDigit (n : Nat) : Char :=
  if n < 10 then Char.ofNat (48 + n) else Char.ofNat (87 + n)

/-- Eight hexadecimal digits of one 32-bit word. -/
def wordHex (n : Nat) : List Char :=
  [hexDigit (n / 268435456 % 16), hexDigit (n / 16777216 % 16),
   hexDigit (n / 1048576 % 16), hexDigit (n / 65536 % 16),
   hexDigit (n / 4096 % 16), hexDigit (n / 256 % 16),
   hexDigit (n / 16 % 16), hexDigit (n % 16)]

/-- `hashlib.sha256(bytes).hexdigest()`: 64 lower-case hex characters. -/
def sha256Hex (msg : List Nat) : List Char :=
  (sha256Words msg).flatMap wordHex

/-- `QueryAnalyzer._generate_query_hash`: SHA-256 hex digest of the UTF-8
encoding of the (already normalized) query text. -/
def generate_query_hash (q : List Char) : List Char := sha256Hex (utf8Bytes q)

/-- The fingerprint `analyze_query` stores as `metadata["query_hash"]`: the
hash of `_normalize_query(_clean_query(query))`. -/
def fingerprintOf (q : List Char) : List Char := generate_query_hash (normalizedOf q)

/-! ## Regex pattern matchers

`QueryAnalyzer` checks the normalized query against fixed regular
expressions with `re.search(..., re.IGNORECASE)` (and plain substring tests
for system tables).  Each pattern is translated into a decidable matcher
over the lower-cased query text; the doc comments quote the pattern. -/

/-- Character at a position, with a space (a non-word character) beyond the
ends. -/
def chAt (s : List Char) (i : Nat) : Char := s.getD i (Char.ofNat 32)

/-- `\b` holds before position `i` when `i` is the start or the previous
character is not a word character (all our patterns place `\b` adjacent to
word characters inside the pattern, so only the outside character decides). -/
def bdryBefore (s : List Char) (i : Nat) : Bool :=
  i = 0 || !(isWordCh (chAt s (i - 1)))

/-- `\b` holds after a word ending at position `j` (exclusive) when `j` is
the end of the string or the character at `j` is not a word character. -/
def bdryAfter (s : List Char) (j : Nat) : Bool :=
  s.length ≤ j || !(isWordCh (chAt s j))

/-- The pattern text occurs literally at position `i`. -/
def litAt (pat s : List Char) (i : Nat) : Bool := pat.isPrefixOf (s.drop i)

/-- Word-bounded occurrence of `w` at `i`: `\bw\b`. -/
def wordAt (w s : List Char) (i : Nat) : Bool :=
  litAt w s i && bdryBefore s i && bdryAfter s (i + w.length)

/-- All candidate match start positions. -/
def allPos (s : List Char) : List Nat := List.range (s.length + 1)

/-- `re.search(r'\bw\b', s)` for a single word `w`. -/
def containsWordB (w s : List Char) : Bool := (allPos s).any (wordAt w s)

/-- Python `pat in s`: plain substring containment. -/
def containsSub (pat s : List Char) : Bool := (allPos s).any (litAt pat s)

/-- Length of the run of characters satisfying `p` starting at `i`. -/
def runLen (p : Char → Bool) (s : List Char) (i : Nat) : Nat :=
  ((s.drop i).takeWhile p).length

/-- Greedy `p+`: the position after at least one `p` character, or failure.
All patterns below follow a repeated class by a character outside the
class, so greedy matching is exact. -/
def skipPlus (p : Char → Bool) (s : List Char) (i : Nat) : Option Nat :=
  if runLen p s i = 0 then none else some (i + runLen p s i)

/-- Greedy `p*`: the position after any number of `p` characters. -/
def skipStar (p : Char → Bool) (s : List Char) (i : Nat) : Nat := i + runLen p s i

/-- The tail `\s+\w+\s*=\s*\w+` of the tautology patterns, matched from
position `i`. -/
def eqTailAt (s : List Char) (i : Nat) : Bool :=
  (do
    let j1 ← skipPlus isSpaceCh s i
    let j2 ← skipPlus isWordCh s j1
    let j3 := skipStar isSpaceCh s j2
    let _ ← if chAt s j3 = Char.ofNat 61 ∧ j3 < s.length then some () else none
    let j5 := skipStar isSpaceCh s (j3 + 1)
    let j6 ← skipPlus isWordCh s j5
    pure j6).isSome

/-- `(\bor\b\s+\w+\s*=\s*\w+)`. -/
def matchOrEq (s : List Char) : Bool :=
  (allPos s).any (fun i => wordAt "or".data s i && eqTailAt s (i + 2))

/-- `(\band\b\s+\w+\s*=\s*\w+)`. -/
def matchAndEq (s : List Char) : Bool :=
  (allPos s).any (fun i => wordAt "and".data s i && eqTailAt s (i + 3))

/-- `(union\s+select)` — no word boundaries. -/
def matchUnionSelect (s : List Char) : Bool :=
  (allPos s).any (fun i =>
    litAt "union".data s i &&
      match skipPlus isSpaceCh s (i + 5) with
      | some j => litAt "select".data s j
      | none => false)

/-- `;\s*w1\s+w2` for fixed words, as in `(;\s*drop\s+table)` and
`(;\s*delete\s+from)`. -/
def matchSemiPair (w1 w2 s : List Char) : Bool :=
  (allPos s).any (fun i =>
    litAt [Char.ofNat 59] s i &&
      (let j := skipStar isSpaceCh s (i + 1)
       litAt w1 s j &&
         match skipPlus isSpaceCh s (j + w1.length) with
         | some k => litAt w2 s k
         | none => false))

/-- `w\s*\(` without a leading boundary, as in `(exec\s*\()` and
`(eval\s*\()`. -/
def matchWordParen (w s : List Char) : Bool :=
  (allPos s).any (fun i =>
    litAt w s i && litAt [Char.ofNat 40] s (skipStar isSpaceCh s (i + w.length)))

/-- `\bw\s*\(` — the same with a leading `\b`, as in the `dynamic_sql`
pattern `\bexec\s*\(` and `char_function` pattern `\bchar\s*\(`. -/
def matchWordParenB (w s : List Char) : Bool :=
  (allPos s).any (fun i =>
    bdryBefore s i && litAt w s i &&
      litAt [Char.ofNat 40] s (skipStar isSpaceCh s (i + w.length)))

/-- `\bunion\s+select\b.*\bfrom\b` (the `union_injection` dangerous
pattern); the normalized query contains no newline, so `.` matches any
character. -/
def matchUnionInjection (s : List Char) : Bool :=
  (allPos s).any (fun i =>
    bdryBefore s i && litAt "union".data s i &&
      match skipPlus isSpaceCh s (i + 5) with
      | some j =>
        litAt "select".data s j && bdryAfter s (j + 6) &&
          (allPos s).any (fun k => j + 6 ≤ k && wordAt "from".data s k)
      | none => false)

/-- `;\s*(drop|delete|insert|update|create|alter)` (the `stacked_queries`
dangerous pattern). -/
def matchStacked (s : List Char) : Bool :=
  (allPos s).any (fun i =>
    litAt [Char.ofNat 59] s i &&
      (let j := skipStar isSpaceCh s (i + 1)
       ["drop".data, "delete".data, "insert".data, "update".data,
        "create".data, "alter".data].any (fun w => litAt w s j)))

/-- `0x[0-9a-f]+` (the `hex_encoding` dangerous pattern) on the lower-cased
text. -/
def matchHexEncoding (s : List Char) : Bool :=
  (allPos s).any (fun i =>
    litAt "0x".data s i &&
      (isDigitCh (chAt s (i + 2)) ||
        (97 ≤ (chAt s (i + 2)).toNat && (chAt s (i + 2)).toNat ≤ 102)) &&
      i + 2 < s.length)

/-- `\bwaitfor\s+delay\b` (the `waitfor_delay` dangerous pattern). -/
def matchWaitforDelay (s : List Char) : Bool :=
  (allPos s).any (fun i =>
    bdryBefore s i && litAt "waitfor".data s i &&
      match skipPlus isSpaceCh s (i + 7) with
      | some j => litAt "delay".data s j && bdryAfter s (j + 5)
      | none => false)

/-- `\b(w1|w2|...)\b`: some alternative occurs word-bounded. -/
def matchWordAlt (ws : List (List Char)) (s : List Char) : Bool :=
  ws.any (fun w => containsWordB w s)

/-! ## QueryAnalyzer -/

/-- One entry of `security_issues` / `performance_issues` /
`compliance_issues`.  The Python dictionaries carry a `type`, a `severity`
and further descriptive keys; the descriptive keys are collapsed into
`detail` (the pattern name, restriction index, or table name — enough to
identify the issue). -/
structure Issue where
  kind : String
  severity : String
  detail : String
deriving DecidableEq, Repr

/-- `QueryAnalyzer._load_dangerous_patterns`, paired with its matcher, in
the dictionary's insertion order.  Each hit scores 30 and produces a
high-severity `dangerous_pattern` issue. -/
def dangerousHits (s : List Char) : List String :=
  (([("xp_cmdshell", containsWordB "xp_cmdshell".data s),
     ("sp_executesql", containsWordB "sp_executesql".data s),
     ("dynamic_sql", matchWordParenB "exec".data s),
     ("union_injection", matchUnionInjection s),
     ("stacked_queries", matchStacked s),
     ("comment_injection",
       containsSub "/*".data s || containsSub "*/".data s || containsSub "--".data s),
     ("hex_encoding", matchHexEncoding s),
     ("char_function", matchWordParenB "char".data s),
     ("waitfor_delay", matchWaitforDelay s),
     ("shutdown", containsWordB "shutdown".data s)] :
    List (String × Bool)).filter (fun p => p.2)).map (fun p => p.1)

/-- The seven `injection_patterns` of `_analyze_security`, in order.  Each
hit scores 50 and produces a critical-severity `sql_injection` issue. -/
def injectionHits (s : List Char) : List String :=
  (([("or_tautology", matchOrEq s),
     ("and_tautology", matchAndEq s),
     ("union_select", matchUnionSelect s),
     ("semi_drop_table", matchSemiPair "drop".data "table".data s),
     ("semi_delete_from", matchSemiPair "delete".data "from".data s),
     ("exec_paren", matchWordParen "exec".data s),
     ("eval_paren", matchWordParen "eval".data s)] :
    List (String × Bool)).filter (fun p => p.2)).map (fun p => p.1)

/-- `\b(exec|execute|sp_|xp_)\b`: the procedure-execution restriction shared
by the readonly and powerbi roles. -/
def matchExecAlt (s : List Char) : Bool :=
  matchWordAlt ["exec".data, "execute".data, "sp_".data, "xp_".data] s

/-- `QueryAnalyzer._check_unauthorized_operations`: the per-role restriction
patterns (`role_restrictions`); unknown roles have none.  Each matching
restriction pattern produces one high-severity `unauthorized_operation`
issue scoring 20. -/
def restrictionHits (role : String) (s : List Char) : List String :=
  let sets : List (String × Bool) :=
    if role = "readonly" then
      [("dml_ddl", matchWordAlt ["insert".data, "update".data, "delete".data,
        "drop".data, "create".data, "alter".data, "truncate".data] s),
       ("grant_revoke", matchWordAlt ["grant".data, "revoke".data] s),
       ("exec_procs", matchExecAlt s)]
    else if role = "powerbi" then
      [("ddl", matchWordAlt ["drop".data, "create".data, "alter".data,
        "truncate".data] s),
       ("grant_revoke", matchWordAlt ["grant".data, "revoke".data] s),
       ("exec_procs", matchExecAlt s)]
    else if role = "analyst" then
      [("ddl", matchWordAlt ["drop".data, "create".data, "alter".data] s),
       ("grant_revoke", matchWordAlt ["grant".data, "revoke".data] s)]
    else []
  (sets.filter (fun p => p.2)).map (fun p => p.1)

/-- The `system_tables` substring probes of `_analyze_security`, in order.
Each hit scores 15 and produces a medium-severity `system_table_access`
issue. -/
def systemTableHits (s : List Char) : List String :=
  ((["information_schema", "sys.", "pg_", "mysql.", "master.",
     "msdb.", "tempdb.", "model."] :
    List String).filter (fun t => containsSub t.data s)).map (fun t => t)

/-- `QueryAnalyzer._analyze_security` on the normalized query: the issue
list (dangerous patterns, then injection patterns, then unauthorized
operations, then system tables) and the summed risk score
(30/50/20/15 per hit respectively).  All regexes run with `re.IGNORECASE`,
modelled by matching on the lower-cased text. -/
def analyze_security (normalized : List Char) (role : String) :
    List Issue × Nat :=
  let q := lowerStr normalized
  let dang := dangerousHits q
  let inj := injectionHits q
  let unauth := restrictionHits role q
  let systs := systemTableHits q
  (dang.map (fun n => Issue.mk "dangerous_pattern" "high" n) ++
     inj.map (fun n => Issue.mk "sql_injection" "critical" n) ++
     unauth.map (fun n => Issue.mk "unauthorized_operation" "high" n) ++
     systs.map (fun n => Issue.mk "system_table_access" "medium" n),
   30 * dang.length + 50 * inj.length + 20 * unauth.length + 15 * systs.length)

/-- Count non-overlapping matches of a pattern, as `re.findall` does: scan
from the left, and resume after each match. -/
def countScanAux (m : List Char → Nat → Option Nat) (s : List Char) :
    Nat → Nat → Nat
  | 0, _ => 0
  | fuel + 1, i =>
    if s.length < i then 0
    else
      match m s i with
      | some e => 1 + countScanAux m s fuel (max e (i + 1))
      | none => countScanAux m s fuel (i + 1)

/-- Entry point for `countScanAux` with enough fuel for the whole string. -/
def countMatches (m : List Char → Nat → Option Nat) (s : List Char) : Nat :=
  countScanAux m s (s.length + 1) 0

/-- One match of `\bfrom\s+(\w+)` starting at `i`, returning its end. -/
def fromTblAt (s : List Char) (i : Nat) : Option Nat :=
  if bdryBefore s i && litAt "from".data s i then do
    let j ← skipPlus isSpaceCh s (i + 4)
    let k ← skipPlus isWordCh s j
    pure k
  else none

/-- One match of `\b(inner\s+join|left\s+join|right\s+join|full\s+join|join)\b`
starting at `i` (alternatives tried left to right), returning its end. -/
def joinAltAt (s : List Char) (i : Nat) : Option Nat :=
  if !(bdryBefore s i) then none
  else
    let pair := fun (w : List Char) =>
      if litAt w s i then
        match skipPlus isSpaceCh s (i + w.length) with
        | some j =>
          if litAt "join".data s j && bdryAfter s (j + 4) then some (j + 4) else none
        | none => none
      else none
    match pair "inner".data with
    | some e => some e
    | none =>
      match pair "left".data with
      | some e => some e
      | none =>
        match pair "right".data with
        | some e => some e
        | none =>
          match pair "full".data with
          | some e => some e
          | none =>
            if litAt "join".data s i && bdryAfter s (i + 4) then some (i + 4)
            else none

/-- One match of `\(\s*select\b` starting at `i`, returning its end. -/
def subqueryAt (s : List Char) (i : Nat) : Option Nat :=
  if litAt [Char.ofNat 40] s i then
    let j := skipStar isSpaceCh s (i + 1)
    if litAt "select".data s j && bdryAfter s (j + 6) then some (j + 6) else none
  else none

/-- One match of `\b(group\s+by|order\s+by|having)\b` starting at `i`,
returning its end. -/
def groupOrderAt (s : List Char) (i : Nat) : Option Nat :=
  if !(bdryBefore s i) then none
  else
    let pair := fun (w : List Char) =>
      if litAt w s i then
        match skipPlus isSpaceCh s (i + w.length) with
        | some j =>
          if litAt "by".data s j && bdryAfter s (j + 2) then some (j + 2) else none
        | none => none
      else none
    match pair "group".data with
    | some e => some e
    | none =>
      match pair "order".data with
      | some e => some e
      | none =>
        if litAt "having".data s i && bdryAfter s (i + 6) then some (i + 6)
        else none

/-- `re.search(r'select\s+\*', q)` — no word boundaries. -/
def matchSelectStar (s : List Char) : Bool :=
  (allPos s).any (fun i =>
    litAt "select".data s i &&
      match skipPlus isSpaceCh s (i + 6) with
      | some j => litAt [Char.ofNat 42] s j
      | none => false)

/-- `re.search(r'\b(update|delete)\b(?!.*\bwhere\b)', q)`: some word-bounded
`update` or `delete` is followed by no word-bounded `where` anywhere to its
right (the negative lookahead; the normalized query has no newlines, so
`.*` reaches the end of the string). -/
def matchMissingWhere (s : List Char) : Bool :=
  (allPos s).any (fun i =>
    (wordAt "update".data s i || wordAt "delete".data s i) &&
      !((allPos s).any (fun k => i + 6 ≤ k && wordAt "where".data s k)))

/-- A metadata dictionary value: a string or a number. -/
inductive MetaVal where
  | mstr : List Char → MetaVal
  | mnum : Nat → MetaVal
deriving DecidableEq, Repr

/-- `QueryAnalyzer._analyze_performance` on the normalized query: the
performance issue list (in the source's check order), the suggestion list,
and the replacement metadata dictionary with `table_count`, `join_count`
and `complexity_score`.  All regexes run with `re.IGNORECASE`, modelled on
the lower-cased text. -/
def analyze_performance (normalized : List Char) :
    List Issue × List String × List (String × MetaVal) :=
  let q := lowerStr normalized
  let tableCount := countMatches fromTblAt q
  let joinCount := countMatches joinAltAt q
  let subqueryCount := countMatches subqueryAt q
  let complexity := tableCount * 2 + joinCount * 3 + subqueryCount * 4 +
    (countMatches groupOrderAt q) * 2
  let issues :=
    (if matchSelectStar q then
      [Issue.mk "select_star" "medium" "select_star"] else []) ++
    (if matchMissingWhere q then
      [Issue.mk "missing_where" "high" "missing_where"] else []) ++
    (if 5 < joinCount then
      [Issue.mk "complex_joins" "medium" "complex_joins"] else []) ++
    (if 3 < subqueryCount then
      [Issue.mk "complex_subqueries" "medium" "complex_subqueries"] else []) ++
    (if 20 < complexity then
      [Issue.mk "high_complexity" "medium" "high_complexity"] else [])
  let suggestions :=
    if matchSelectStar q then
      ["Consider specifying only required columns instead of SELECT *"] else []
  (issues, suggestions,
   [("table_count", MetaVal.mnum tableCount),
    ("join_count", MetaVal.mnum joinCount),
    ("complexity_score", MetaVal.mnum complexity)])

/-- `\bw1.w2\b` where `.` matches any single character, as in the PII
alternatives `social.security` and `credit.card`. -/
def matchDottedPii (w1 w2 s : List Char) : Bool :=
  (allPos s).any (fun i =>
    bdryBefore s i && litAt w1 s i && i + w1.length < s.length &&
      litAt w2 s (i + w1.length + 1) &&
      bdryAfter s (i + w1.length + 1 + w2.length))

/-- `QueryAnalyzer._analyze_compliance` on the normalized query: the
compliance issue list (production modification, then the three PII
patterns).  These issues are reported but contribute nothing to the risk
score or risk level. -/
def analyze_compliance (normalized : List Char) (environment : String) :
    List Issue :=
  let q := lowerStr normalized
  (if environment = "production" &&
      matchWordAlt ["insert".data, "update".data, "delete".data,
        "drop".data, "truncate".data, "alter".data] q then
    [Issue.mk "production_modification" "high" "production_modification"]
  else []) ++
  (if matchWordAlt ["ssn".data, "phone".data, "email".data, "address".data] q ||
      matchDottedPii "social".data "security".data q ||
      matchDottedPii "credit".data "card".data q then
    [Issue.mk "potential_pii_access" "medium" "pii_identity"] else []) ++
  (if matchWordAlt ["password".data, "pwd".data, "secret".data,
      "token".data, "key".data] q then
    [Issue.mk "potential_pii_access" "medium" "pii_credentials"] else []) ++
  (if matchWordAlt ["salary".data, "income".data, "wage".data,
      "compensation".data] q then
    [Issue.mk "potential_pii_access" "medium" "pii_financial"] else [])

/-- `app.models.query.QueryType`. -/
inductive QueryType where
  | select | insert | update | delete | create | drop | alter | truncate | other
deriving DecidableEq, Repr

/-- `app.models.query.RiskLevel`. -/
inductive RiskLevel where
  | low | medium | high | critical
deriving DecidableEq, Repr

/-- sqlparse token kinds relevant to `_detect_query_type`: the lexer tags
SELECT/INSERT/UPDATE/DELETE (and a few more) `Token.Keyword.DML`,
CREATE/DROP/ALTER/TRUNCATE `Token.Keyword.DDL`, and other keywords plain
`Token.Keyword`; the `token.ttype is tokens.Keyword` identity test in the
source matches only the plain kind. -/
inductive TokKind where
  | dml | ddl | kw | name | num | litTok | punct | wsTok
deriving DecidableEq, Repr

/-- Classify a buffered word token by sqlparse kind. -/
def classifyWord (w : List Char) : TokKind :=
  match w with
  | [] => TokKind.punct
  | c :: _ =>
    if isDigitCh c then TokKind.num
    else if dmlKeywords.contains (upperStr w) then TokKind.dml
    else if ddlKeywords.contains (upperStr w) then TokKind.ddl
    else if plainKeywords.contains (upperStr w) then TokKind.kw
    else TokKind.name

/-- Emit a buffered word token (held in reverse) with its kind. -/
def flushTok (accRev : List Char) : List (TokKind × List Char) :=
  match accRev.reverse with
  | [] => []
  | c :: w => [(classifyWord (c :: w), c :: w)]

/-- Tokenizer for `_detect_query_type`'s walk over
`sqlparse.parse(normalized)[0].flatten()`: word tokens are maximal `\w`
runs, single-quoted literals are one token, and every other character is
its own token.  First argument: inside a string literal. -/
def tokSt : Bool → List Char → List Char → List (TokKind × List Char)
  | false, accRev, [] => flushTok accRev
  | true, accRev, [] => [(TokKind.litTok, accRev.reverse)]
  | true, accRev, c :: t =>
    if c = quoteCh then (TokKind.litTok, (c :: accRev).reverse) :: tokSt false [] t
    else tokSt true (c :: accRev) t
  | false, accRev, c :: t =>
    if isWordCh c then tokSt false (c :: accRev) t
    else if c = quoteCh then flushTok accRev ++ tokSt true [c] t
    else
      flushTok accRev ++
        ((if isSpaceCh c then TokKind.wsTok else TokKind.punct), [c]) ::
          tokSt false [] t

/-- The `type_mapping` dictionary of `_detect_query_type`. -/
def typeMapping (w : List Char) : QueryType :=
  if w = "SELECT".data then QueryType.select
  else if w = "INSERT".data then QueryType.insert
  else if w = "UPDATE".data then QueryType.update
  else if w = "DELETE".data then QueryType.delete
  else if w = "CREATE".data then QueryType.create
  else if w = "DROP".data then QueryType.drop
  else if w = "ALTER".data then QueryType.alter
  else if w = "TRUNCATE".data then QueryType.truncate
  else QueryType.other

/-- `QueryAnalyzer._detect_query_type`: the first flattened token whose
ttype is plain `Token.Keyword` (the `is` identity test does not match the
`Keyword.DML`/`Keyword.DDL` subtypes, so the leading SELECT/INSERT/… of an
ordinary statement is skipped), upper-cased and looked up in
`type_mapping`; `OTHER` when absent or when no such token exists. -/
def detect_query_type (normalized : List Char) : QueryType :=
  match (tokSt false [] normalized).find? (fun t => t.1 = TokKind.kw) with
  | some t => typeMapping (upperStr t.2)
  | none => QueryType.other

/-- `QueryAnalyzer._calculate_risk_level`: thresholds on the score, then
critical security issues, then high-severity issues in production, then a
nonzero score under the readonly role. -/
def calculate_risk_level (risk_score : Nat) (security_issues : List Issue)
    (user_role environment : String) : RiskLevel :=
  if 50 ≤ risk_score then RiskLevel.critical
  else if 30 ≤ risk_score then RiskLevel.high
  else if 15 ≤ risk_score then RiskLevel.medium
  else if security_issues.any (fun i => i.severity = "critical") then
    RiskLevel.critical
  else if environment = "production" &&
      security_issues.any (fun i => i.severity = "high") then
    RiskLevel.high
  else if user_role = "readonly" && 0 < risk_score then RiskLevel.medium
  else RiskLevel.low

/-- `settings.QUERY_APPROVAL_REQUIRED` (app/core/config.py line 126): the
shipped default is `False`. -/
def queryApprovalRequiredDefault : Bool := false

/-- `QueryAnalyzer._requires_approval`, with
`settings.QUERY_APPROVAL_REQUIRED` as the first argument: with the setting
off nothing requires approval; otherwise HIGH/CRITICAL risk, or a
data-modifying statement type in production, or a non-SELECT statement from
the readonly role. -/
def requires_approval (approvalSetting : Bool) (risk_level : RiskLevel)
    (query_type : QueryType) (user_role environment : String) : Bool :=
  if !approvalSetting then false
  else if risk_level = RiskLevel.critical || risk_level = RiskLevel.high then true
  else if environment = "production" &&
      [QueryType.insert, QueryType.update, QueryType.delete,
       QueryType.drop, QueryType.truncate, QueryType.alter].contains query_type then
    true
  else if user_role = "readonly" && !(query_type = QueryType.select) then true
  else false

/-- The analysis dictionary built by `QueryAnalyzer.analyze_query`.  The
invalid branches of the source return a dictionary with only `valid`,
`error`, `risk_level` and `warnings`; the remaining fields then hold the
defaults that the source's consumers read through `.get` (empty lists,
`OTHER`, score 0, approval `False`, empty metadata). -/
structure AnalysisResult where
  valid : Bool
  error : Option String
  query_type : QueryType
  risk_level : RiskLevel
  risk_score : Nat
  warnings : List String
  suggestions : List String
  security_issues : List Issue
  performance_issues : List Issue
  compliance_issues : List Issue
  metadata : List (String × MetaVal)
  requires_approval : Bool
deriving DecidableEq, Repr

/-- The invalid-analysis dictionary (empty query / parse failure /
caught exception): `valid=False`, the given error, `risk_level=HIGH`. -/
def invalidResult (msg : String) (warning : String) : AnalysisResult :=
  { valid := false, error := some msg, query_type := QueryType.other,
    risk_level := RiskLevel.high, risk_score := 0, warnings := [warning],
    suggestions := [], security_issues := [], performance_issues := [],
    compliance_issues := [], metadata := [], requires_approval := false }

/-- `QueryAnalyzer.analyze_query`.  Empty or whitespace-only queries and
queries whose normal form is empty (so `sqlparse.parse` yields no
statement) take the invalid branches; otherwise the security, performance
and compliance analyses run on the normalized text.  Two source behaviours
worth noting, both modelled exactly: the catch-all `except` (lines
119–126) makes the function total, and `analysis_results.update(...)` with
the performance analysis replaces the `metadata` dictionary wholesale, so
the final metadata holds only `table_count`, `join_count` and
`complexity_score` — `query_hash` and `normalized_query` are no longer
present. -/
def analyze_query (approvalSetting : Bool) (query : List Char)
    (user_role environment : String) : AnalysisResult :=
  if stripEnds query = [] then
    invalidResult "Query cannot be empty" "Empty query provided"
  else
    let cleaned := clean_query query
    let normalized := normalize_query cleaned
    if normalized = [] then
      invalidResult "Unable to parse SQL query" "Query parsing failed"
    else
      let sec := analyze_security normalized user_role
      let perf := analyze_performance normalized
      let comp := analyze_compliance normalized environment
      let risk := calculate_risk_level sec.2 sec.1 user_role environment
      let qt := detect_query_type normalized
      { valid := true, error := none, query_type := qt, risk_level := risk,
        risk_score := sec.2, warnings := [], suggestions := perf.2.1,
        security_issues := sec.1, performance_issues := perf.1,
        compliance_issues := comp, metadata := perf.2.2,
        requires_approval :=
          requires_approval approvalSetting risk qt user_role environment }

/-! ## RateLimiterService -/

/-- `rate_limiter.RateLimitRule`.  The Python `burst_allowance` is a float
with default `1.5`; it is modelled as the exact rational
`burstNum / burstDen` (default `3 / 2`), and the `int(...)` truncation of a
non-negative value is `Nat` floor division. -/
structure RateLimitRule where
  requests : Nat
  window_seconds : Nat
  burstNum : Nat
  burstDen : Nat
  block_duration_seconds : Nat
deriving DecidableEq, Repr

/-- `rate_limiter.RateLimitResult`.  Timestamps are seconds as `Nat`;
`reset_time` is absolute. -/
structure RateLimitResult where
  allowed : Bool
  remaining : Nat
  reset_time : Nat
  retry_after : Option Nat
deriving DecidableEq, Repr

/-- `int(rule.requests * rule.burst_allowance)`: the burst ceiling. -/
def burstLimit (rule : RateLimitRule) : Nat :=
  rule.requests * rule.burstNum / rule.burstDen

/-- The window dictionary kept in the counter store: bucket timestamp
(seconds) to request count, in insertion order. -/
def pruneWindow (now window : Nat) (data : List (Nat × Nat)) : List (Nat × Nat) :=
  data.filter (fun b => now < b.1 + window)

/-- Sum of the bucket counts. -/
def windowTotal (data : List (Nat × Nat)) : Nat :=
  (data.map (fun b => b.2)).sum

/-- `cleaned_data[current_minute] = cleaned_data.get(current_minute, 0) + 1`:
increment in place when the bucket exists (dictionary order preserved),
else append. -/
def bumpBucket (minute : Nat) : List (Nat × Nat) → List (Nat × Nat)
  | [] => [(minute, 1)]
  | b :: t =>
    if b.1 = minute then (b.1, b.2 + 1) :: t else b :: bumpBucket minute t

/-- The result built by the `except` handler of `_check_sliding_window`
(lines 179–186): allow, full budget remaining. -/
def failOpenResult (now : Nat) (rule : RateLimitRule) : RateLimitResult :=
  { allowed := true, remaining := rule.requests,
    reset_time := now + rule.window_seconds, retry_after := none }

/-- `RateLimiterService._check_sliding_window`.  `getRes` is the counter
store read (`cache_service.get`), which may raise; `setOk` is whether the
counter store write succeeds.  Entries older than the window are pruned
(`fromisoformat(ts) > window_start`, i.e. `now < ts + window`); the request
is denied — with `retry_after = window_seconds` — only when the pruned
total reaches both `rule.requests` and the burst ceiling; otherwise the
current-minute bucket (`now` rounded down to the minute) is incremented
and the request allowed with the remaining budget.  Any raise inside the
`try` block fails open.  The second component is the dictionary written
back to the store, when a successful write happens. -/
def check_sliding_window (now : Nat) (rule : RateLimitRule)
    (getRes : Except String (List (Nat × Nat))) (setOk : Bool) :
    RateLimitResult × Option (List (Nat × Nat)) :=
  match getRes with
  | Except.error _ => (failOpenResult now rule, none)
  | Except.ok windowData =>
    let cleaned := pruneWindow now rule.window_seconds windowData
    let total := windowTotal cleaned
    if rule.requests ≤ total ∧ burstLimit rule ≤ total then
      ({ allowed := false, remaining := 0,
         reset_time := now + rule.window_seconds,
         retry_after := some rule.window_seconds }, none)
    else
      let newData := bumpBucket (now / 60 * 60) cleaned
      if setOk then
        ({ allowed := true, remaining := rule.requests - windowTotal newData,
           reset_time := now + rule.window_seconds, retry_after := none },
         some newData)
      else (failOpenResult now rule, none)

/-! ## Connection pools (`SQLProxyService`) -/

/-- `app.models.sql_server.ServerType`. -/
inductive ServerType where
  | mssql | postgresql | mysql | oracle | sqlite
deriving DecidableEq, Repr

/-- The fields of `SQLServerConnection` that `_get_connection_pool` and
`_build_connection_string` read. -/
structure Server where
  sid : Nat
  name : String
  server_type : ServerType
  host : String
  port : Nat
  database : String
  username : String
  password : String
  max_connections : Nat
deriving DecidableEq, Repr

/-- `SQLProxyService._build_connection_string`: engine-specific URL
containing the credentials. -/
def build_connection_string (s : Server) : String :=
  match s.server_type with
  | ServerType.postgresql =>
    "postgresql://" ++ s.username ++ ":" ++ s.password ++ "@" ++
      s.host ++ ":" ++ toString s.port ++ "/" ++ s.database
  | ServerType.mysql =>
    "mysql+pymysql://" ++ s.username ++ ":" ++ s.password ++ "@" ++
      s.host ++ ":" ++ toString s.port ++ "/" ++ s.database
  | ServerType.mssql =>
    "mssql+pyodbc://" ++ s.username ++ ":" ++ s.password ++ "@" ++
      s.host ++ ":" ++ toString s.port ++ "/" ++ s.database ++
      "?driver=ODBC+Driver+17+for+SQL+Server"
  | ServerType.oracle =>
    "oracle+cx_oracle://" ++ s.username ++ ":" ++ s.password ++ "@" ++
      s.host ++ ":" ++ toString s.port ++ "/" ++ s.database
  | ServerType.sqlite => "sqlite:///" ++ s.database

/-- The pool registry key of `_get_connection_pool` (line 434):
`f"{server.id}_{server.host}_{server.port}_{server.database}"` — the
credentials are not part of the key. -/
def poolKey (s : Server) : String :=
  toString s.sid ++ "_" ++ s.host ++ "_" ++ toString s.port ++ "_" ++
    toString s.database

/-- A created engine/pool: the connection URL it was built from and its
size (`server.max_connections or 10`). -/
structure Pool where
  connStr : String
  pool_size : Nat
deriving DecidableEq, Repr

/-- `SQLProxyService._get_connection_pool` over the `connection_pools`
registry, modelled as an association list: return the cached pool for the
key when present, otherwise create an engine from the freshly built
connection string and register it.  (The source's engine-creation failure
path returns `None`; creation is modelled as succeeding, since pool
identity and reuse are what is at stake here.) -/
def get_connection_pool (s : Server) (pools : List (String × Pool)) :
    Pool × List (String × Pool) :=
  match pools.find? (fun kv => kv.1 = poolKey s) with
  | some kv => (kv.2, pools)
  | none =>
    let p : Pool :=
      { connStr := build_connection_string s,
        pool_size := if s.max_connections = 0 then 10 else s.max_connections }
    (p, pools ++ [(poolKey s, p)])

/-! ## SQLProxyService.execute_query

The execution pipeline is modelled from the analysis step onward (lines
103–327 of sql_proxy.py), with the database-session bookkeeping reduced to
the status transitions it writes.  Requests are modelled with
`parameters=None`, so the cache-key parameter hash is the empty string.
The backend round trip (`_execute_with_pool` under `asyncio.wait_for`) is
an oracle argument: either the result dictionary it returns or the message
of the exception it raises (timeout included). -/

/-- `app.models.query.QueryStatus` (lines 13–19): the execution-record
states.  There is no waiting-approval member. -/
inductive QueryStatus where
  | pending | running | success | failed | cancelled | timeout
deriving DecidableEq, Repr

/-- A cached query result (`_cache_result` stores data, columns and
row count under the cache key). -/
structure CacheEntry where
  data : List (List String)
  columns : List String
  row_count : Nat
deriving DecidableEq, Repr

/-- The dictionary `_execute_with_pool` returns. -/
structure ExecResult where
  success : Bool
  data : List (List String)
  columns : List String
  row_count : Nat
  rows_affected : Nat
  result_size_bytes : Nat
  error : Option String
deriving DecidableEq, Repr

/-- Outcome of the backend round trip: the returned dictionary, or the
raised exception's message (pool-creation failure, timeout, …). -/
inductive ExecOutcome where
  | ok : ExecResult → ExecOutcome
  | exc : String → ExecOutcome
deriving DecidableEq, Repr

/-- The dictionary `execute_query` returns. -/
structure ProxyResponse where
  success : Bool
  data : Option (List (List String))
  columns : Option (List String)
  row_count : Nat
  rows_affected : Nat
  cached : Bool
  error : Option String
deriving DecidableEq, Repr

/-- Observable effects of one `execute_query` call: the statuses assigned
to the `QueryExecution` record in order (empty when no record was
created), whether `_execute_query_on_server` was reached, the cache and
pool registries afterwards, the statistics increments, and the audit
actions logged. -/
structure ProxyTrace where
  recordStatuses : List QueryStatus
  backendAttempted : Bool
  cacheAfter : List (String × CacheEntry)
  poolsAfter : List (String × Pool)
  failedCount : Nat
  successCount : Nat
  cachedCount : Nat
  auditActions : List String
deriving DecidableEq, Repr

/-- The cache key of `_get_cached_result` / `_cache_result` with
`parameters=None`: `f"query_result:{query_hash}:{server_id}:{param_hash}"`
with an empty parameter hash. -/
def cacheKey (queryHash : List Char) (serverId : Nat) : String :=
  "query_result:" ++ String.mk queryHash ++ ":" ++ toString serverId ++ ":"

/-- The `except` handler of `execute_query` (lines 280–327): mark the
record FAILED when one was created, count a failed query, log a
`query_failed` audit event, and return `success=False` with the
exception's message. -/
def exceptPath (msg : String) (recordSoFar : List QueryStatus)
    (cache : List (String × CacheEntry)) (pools : List (String × Pool))
    (backendAttempted : Bool) : ProxyResponse × ProxyTrace :=
  ({ success := false, data := none, columns := none, row_count := 0,
     rows_affected := 0, cached := false, error := some msg },
   { recordStatuses :=
       if recordSoFar = [] then [] else recordSoFar ++ [QueryStatus.failed],
     backendAttempted := backendAttempted, cacheAfter := cache,
     poolsAfter := pools, failedCount := 1, successCount := 0,
     cachedCount := 0, auditActions := ["query_failed"] })

/-- `SQLProxyService._cache_result`: skip results above 10 MB, otherwise
store data/columns/row count under the cache key. -/
def cache_result (key : String) (res : ExecResult)
    (cache : List (String × CacheEntry)) : List (String × CacheEntry) :=
  if 10485760 < res.result_size_bytes then cache
  else cache ++ [(key, CacheEntry.mk res.data res.columns res.row_count)]

/-- `SQLProxyService.execute_query` from the analysis result onward.

Order of the source's checks: invalid analysis raises `ValueError`
("Query validation failed: …"); an approval requirement raises
`ValueError("Query requires approval before execution")` — both before the
execution record exists.  Creating the record then reads
`analysis_result["metadata"]["query_hash"]`; since `analyze_query`'s
`update(...)` replaced the metadata dictionary, that lookup raises
`KeyError('query_hash')` unless the metadata carries the key.  With a
record created: a cache hit (useCache and query_type SELECT) finishes with
SUCCESS and `cached=True` without touching the pools; otherwise the
backend is attempted through `_get_connection_pool`, the record moves to
SUCCESS or FAILED, and a successful SELECT with at least one row is
written to the cache. -/
def execute_query_from_analysis (analysis : AnalysisResult) (server : Server)
    (use_cache : Bool) (cache : List (String × CacheEntry))
    (pools : List (String × Pool)) (outcome : ExecOutcome) :
    ProxyResponse × ProxyTrace :=
  if !analysis.valid then
    exceptPath ("Query validation failed: " ++
      (analysis.error.getD "")) [] cache pools false
  else if analysis.requires_approval then
    exceptPath "Query requires approval before execution" [] cache pools false
  else
    match (analysis.metadata.find? (fun kv => kv.1 = "query_hash")) with
    | none =>
      -- KeyError('query_hash'); Python renders it with quotes
      exceptPath "'query_hash'" [] cache pools false
    | some (_, MetaVal.mnum _) => exceptPath "'query_hash'" [] cache pools false
    | some (_, MetaVal.mstr queryHash) =>
      let key := cacheKey queryHash server.sid
      let hit :=
        if use_cache && analysis.query_type = QueryType.select then
          cache.find? (fun kv => kv.1 = key)
        else none
      match hit with
      | some kv =>
        ({ success := true, data := some kv.2.data,
           columns := some kv.2.columns, row_count := kv.2.row_count,
           rows_affected := 0, cached := true, error := none },
         { recordStatuses := [QueryStatus.pending, QueryStatus.success],
           backendAttempted := false, cacheAfter := cache,
           poolsAfter := pools, failedCount := 0, successCount := 0,
           cachedCount := 1, auditActions := ["query_executed_cached"] })
      | none =>
        let pp := get_connection_pool server pools
        match outcome with
        | ExecOutcome.exc msg =>
          exceptPath msg [QueryStatus.pending] cache pp.2 true
        | ExecOutcome.ok res =>
          let cacheNew :=
            if res.success && analysis.query_type = QueryType.select &&
                0 < res.row_count then
              cache_result key res cache
            else cache
          ({ success := res.success, data := some res.data,
             columns := some res.columns, row_count := res.row_count,
             rows_affected := res.rows_affected, cached := false,
             error := res.error },
           { recordStatuses := [QueryStatus.pending,
               if res.success then QueryStatus.success else QueryStatus.failed],
             backendAttempted := true, cacheAfter := cacheNew,
             poolsAfter := pp.2,
             failedCount := if res.success then 0 else 1,
             successCount := if res.success then 1 else 0,
             cachedCount := 0, auditActions := ["query_executed"] })

/-- The full call: analyze with the given approval setting, then run the
pipeline. -/
def execute_query (approvalSetting : Bool) (query : List Char)
    (user_role environment : String) (server : Server) (use_cache : Bool)
    (cache : List (String × CacheEntry)) (pools : List (String × Pool))
    (outcome : ExecOutcome) : ProxyResponse × ProxyTrace :=
  execute_query_from_analysis
    (analyze_query approvalSetting query user_role environment)
    server use_cache cache pools outcome

/-! ## Derived views and concrete inputs used by the theorems -/

/-- The whitespace-free chunks of a query after comment stripping:
`clean_query` is exactly these chunks joined by single spaces. -/
def queryChunks (q : List Char) : List (List Char) :=
  splitWs (stripBlockComments (stripLineComments false q))

/-- A chunk with no whitespace characters (true of every `splitWs` chunk). -/
def noWsChunk (c : List Char) : Bool := c.all (fun ch => !(isSpaceCh ch))

/-- The approval condition in the spec's words: risk level HIGH or
CRITICAL, or a data-modifying statement type in a production environment,
or a non-SELECT statement from the readonly role.  Stated independently of
`requires_approval` so the two can be compared. -/
def specApprovalCondition (risk_level : RiskLevel) (query_type : QueryType)
    (user_role environment : String) : Bool :=
  (risk_level = RiskLevel.high || risk_level = RiskLevel.critical) ||
  (environment = "production" &&
    [QueryType.insert, QueryType.update, QueryType.delete,
     QueryType.drop, QueryType.truncate, QueryType.alter].contains query_type) ||
  (user_role = "readonly" && !(query_type = QueryType.select))

/-- A production PostgreSQL backend used as a concrete input. -/
def serverA : Server :=
  { sid := 1, name := "prod-db", server_type := ServerType.postgresql,
    host := "db.internal", port := 5432, database := "app",
    username := "svc", password := "oldpw", max_connections := 10 }

/-- `serverA` after a credential rotation: same id, host, port and
database, new password. -/
def serverA2 : Server := { serverA with password := "newpw" }

/-- `serverA` moved to a different host. -/
def serverA3 : Server := { serverA with host := "db2.internal" }

/-- The SELECT used for the cache-path claims. -/
def selectQuery : List Char := "SELECT name FROM users".data

/-- A live cache entry for `selectQuery`'s fingerprint on `serverA`. -/
def selectCache : List (String × CacheEntry) :=
  [(cacheKey (fingerprintOf selectQuery) serverA.sid,
    { data := [["alice"], ["bob"]], columns := ["name"], row_count := 2 })]

/-- A crafted analysis record whose metadata still carries `query_hash`,
as the record-creation step expects: used to exercise the pipeline stages
behind the metadata lookup. -/
def analysisWithHash : AnalysisResult :=
  { valid := true, error := none, query_type := QueryType.select,
    risk_level := RiskLevel.low, risk_score := 0, warnings := [],
    suggestions := [], security_issues := [], performance_issues := [],
    compliance_issues := [],
    metadata := [("query_hash", MetaVal.mstr "cafe01".data)],
    requires_approval := false }

/-- A successful backend result with zero rows. -/
def zeroRowResult : ExecResult :=
  { success := true, data := [], columns := ["name"], row_count := 0,
    rows_affected := 0, result_size_bytes := 2, error := none }

/-! ## Facts about the normalization scanner (for C1) -/

theorem isWordCh_space : isWordCh (Char.ofNat 32) = false := by decide

theorem space_ne_quote : ¬(Char.ofNat 32 = quoteCh) := by decide

theorem isWordCh_quote : isWordCh quoteCh = false := by decide

/-- Unfolding lemma for `splitWsAux` on the empty input. -/
theorem splitWsAux_nil (acc : List Char) :
    splitWsAux [] acc = if acc.isEmpty then [] else [acc.reverse] := rfl

/-- Unfolding lemma for `splitWsAux` on a cons. -/
theorem splitWsAux_cons (c : Char) (t acc : List Char) :
    splitWsAux (c :: t) acc =
      if isSpaceCh c then
        if acc.isEmpty then splitWsAux t []
        else acc.reverse :: splitWsAux t []
      else splitWsAux t (c :: acc) := rfl

/-- A reversed whitespace-free accumulator is a whitespace-free chunk. -/
theorem noWs_reverse (acc : List Char)
    (hacc : ∀ ch ∈ acc, isSpaceCh ch = false) :
    noWsChunk acc.reverse = true := by
  unfold noWsChunk
  rw [List.all_eq_true]
  intro ch hch
  have := hacc ch (by simpa using hch)
  simp [this]

/-- Every chunk produced by `splitWsAux` is whitespace-free, given a
whitespace-free accumulator. -/
theorem splitWsAux_noWs :
    ∀ (s acc : List Char), (∀ ch ∈ acc, isSpaceCh ch = false) →
      ∀ c ∈ splitWsAux s acc, noWsChunk c = true := by
  intro s
  induction s with
  | nil =>
    intro acc hacc c hc
    rw [splitWsAux_nil] at hc
    by_cases he : acc.isEmpty = true
    · rw [if_pos he] at hc
      exact absurd hc (List.not_mem_nil c)
    · rw [if_neg he] at hc
      have hce : c = acc.reverse := by simpa using hc
      subst hce
      exact noWs_reverse acc hacc
  | cons ch t ih =>
    intro acc hacc c hc
    rw [splitWsAux_cons] at hc
    by_cases hsp : isSpaceCh ch = true
    · rw [if_pos hsp] at hc
      by_cases he : acc.isEmpty = true
      · rw [if_pos he] at hc
        exact ih [] (by intro x hx; simp at hx) c hc
      · rw [if_neg he] at hc
        rcases List.mem_cons.mp hc with h | h
        · subst h
          exact noWs_reverse acc hacc
        · exact ih [] (by intro x hx; simp at hx) c h
    · rw [if_neg hsp] at hc
      refine ih (ch :: acc) ?_ c hc
      intro x hx
      rcases List.mem_cons.mp hx with h | h
      · subst h
        simpa using hsp
      · exact hacc x h

/-- Every `splitWs` chunk is whitespace-free. -/
theorem splitWs_noWs (s : List Char) :
    ∀ c ∈ splitWs s, noWsChunk c = true :=
  splitWsAux_noWs s [] (by simp)

/-- Unfolding lemma for `scanSt` on the empty input. -/
theorem scanSt_nil (mode : Bool) (acc : List Char) :
    scanSt mode acc [] = flushWord acc := by
  cases mode <;> rfl

/-- Unfolding lemma for `scanSt` in literal mode. -/
theorem scanSt_true_cons (acc : List Char) (c : Char) (t : List Char) :
    scanSt true acc (c :: t) =
      if c = quoteCh then c :: scanSt false [] t
      else c :: scanSt true [] t := rfl

/-- Unfolding lemma for `scanSt` in word-building mode. -/
theorem scanSt_false_cons (acc : List Char) (c : Char) (t : List Char) :
    scanSt false acc (c :: t) =
      if isWordCh c then scanSt false (c :: acc) t
      else if c = quoteCh then flushWord acc ++ (c :: scanSt true [] t)
      else flushWord acc ++ (c :: scanSt false [] t) := rfl

/-- The scanner splits at a separating space after a whitespace-free
chunk, provided the chunk does not leave an unterminated string literal
open (its quote count matches its mode): in word-building mode an
even-quote chunk, in literal mode an odd-quote chunk.  The two modes are
proved together by induction on the chunk. -/
theorem scan_split (c : List Char) :
    (∀ acc rest, noWsChunk c = true → c.count quoteCh % 2 = 0 →
      scanSt false acc (c ++ Char.ofNat 32 :: rest) =
        scanSt false acc c ++ Char.ofNat 32 :: scanSt false [] rest) ∧
    (∀ rest, noWsChunk c = true → c.count quoteCh % 2 = 1 →
      scanSt true [] (c ++ Char.ofNat 32 :: rest) =
        scanSt true [] c ++ Char.ofNat 32 :: scanSt false [] rest) := by
  induction c with
  | nil =>
    constructor
    · intro acc rest _ _
      rw [List.nil_append, scanSt_false_cons,
        if_neg (by simp [isWordCh_space]), if_neg space_ne_quote, scanSt_nil]
    · intro rest _ h
      simp at h
  | cons ch c' ih =>
    have hceq : (ch :: c').count quoteCh =
        c'.count quoteCh + (if ch = quoteCh then 1 else 0) := by
      rw [List.count_cons]
      by_cases hq : ch = quoteCh
      · simp [hq]
      · simp [hq, Ne.symm hq]
    constructor
    · intro acc rest hws heven
      have hws2 : noWsChunk c' = true := by
        simp only [noWsChunk, List.all_cons, Bool.and_eq_true] at hws
        exact hws.2
      rcases Bool.eq_false_or_eq_true (isWordCh ch) with hw | hw
      · have heven' : c'.count quoteCh % 2 = 0 := by
          have hq : ¬(ch = quoteCh) := by
            intro h
            rw [h, isWordCh_quote] at hw
            exact Bool.false_ne_true hw
          rw [hceq, if_neg hq] at heven
          simpa using heven
        rw [List.cons_append, scanSt_false_cons, if_pos hw,
          scanSt_false_cons acc ch c', if_pos hw]
        exact ih.1 (ch :: acc) rest hws2 heven'
      · by_cases hq : ch = quoteCh
        · subst hq
          have hodd' : c'.count quoteCh % 2 = 1 := by
            rw [hceq, if_pos rfl] at heven
            omega
          rw [List.cons_append,
            scanSt_false_cons, if_neg (by simp [hw]), if_pos rfl,
            ih.2 rest hws2 hodd',
            scanSt_false_cons acc quoteCh c', if_neg (by simp [hw]), if_pos rfl]
          simp
        · have heven' : c'.count quoteCh % 2 = 0 := by
            rw [hceq, if_neg hq] at heven
            simpa using heven
          rw [List.cons_append,
            scanSt_false_cons, if_neg (by simp [hw]), if_neg hq,
            ih.1 [] rest hws2 heven',
            scanSt_false_cons acc ch c', if_neg (by simp [hw]), if_neg hq]
          simp
    · intro rest hws hodd
      have hws2 : noWsChunk c' = true := by
        simp only [noWsChunk, List.all_cons, Bool.and_eq_true] at hws
        exact hws.2
      by_cases hq : ch = quoteCh
      · subst hq
        have heven' : c'.count quoteCh % 2 = 0 := by
          rw [hceq, if_pos rfl] at hodd
          omega
        rw [List.cons_append, scanSt_true_cons, if_pos rfl,
          ih.1 [] rest hws2 heven',
          scanSt_true_cons [] quoteCh c', if_pos rfl]
        simp
      · have hodd' : c'.count quoteCh % 2 = 1 := by
          rw [hceq, if_neg hq] at hodd
          simpa using hodd
        rw [List.cons_append, scanSt_true_cons, if_neg hq,
          ih.2 rest hws2 hodd',
          scanSt_true_cons [] ch c', if_neg hq]
        simp

/-- `formatSql` distributes over space-joined whitespace-free chunks with
balanced quotes: sqlparse casing treats each chunk independently. -/
theorem formatSql_joinSp (L : List (List Char))
    (hw : ∀ c ∈ L, noWsChunk c = true)
    (hb : ∀ c ∈ L, c.count quoteCh % 2 = 0) :
    formatSql (joinSp L) = joinSp (L.map formatSql) := by
  induction L with
  | nil => rfl
  | cons c L' ih =>
    cases L' with
    | nil => rfl
    | cons c2 t =>
      have hstep : joinSp (c :: c2 :: t) =
          c ++ Char.ofNat 32 :: joinSp (c2 :: t) := rfl
      rw [hstep]
      unfold formatSql
      rw [(scan_split c).1 [] (joinSp (c2 :: t))
        (hw c (by simp)) (hb c (by simp))]
      have ihr := ih (fun x hx => hw x (by simp [hx]))
        (fun x hx => hb x (by simp [hx]))
      unfold formatSql at ihr
      rw [ihr]
      rfl

/-! ## C1 — fingerprint stability -/

/-- C1 counterexample: `SELECT 1` and `SELECT 2` differ only in a literal
value (both are already normalized: keywords upper-case, single spaces, no
comments), yet their fingerprints differ — `_normalize_query` never
replaces literals with placeholders, so the hash input retains the
literal. -/
theorem c1_counterexample :
    normalizedOf "SELECT 1".data = "SELECT 1".data ∧
    normalizedOf "SELECT 2".data = "SELECT 2".data ∧
    fingerprintOf "SELECT 1".data ≠ fingerprintOf "SELECT 2".data := by
  exact ⟨by decide, by decide, by decide⟩

/-- C1 amended: the fingerprint IS stable under whitespace variation,
comment insertion and keyword/identifier case — precisely, whenever two
queries have the same comment-stripped whitespace-separated chunks up to
sqlparse casing (`formatSql` chunk-wise), their fingerprints agree;
the proviso is that no chunk leaves a string literal open across
whitespace (an even quote count per chunk).  Stability under literal-value
changes, as the claim also asserts, fails (see the counterexample). -/
theorem c1_fingerprint_invariance (q1 q2 : List Char)
    (hc : (queryChunks q1).map formatSql = (queryChunks q2).map formatSql)
    (hb1 : ∀ c ∈ queryChunks q1, c.count quoteCh % 2 = 0)
    (hb2 : ∀ c ∈ queryChunks q2, c.count quoteCh % 2 = 0) :
    fingerprintOf q1 = fingerprintOf q2 := by
  have h1 : formatSql (joinSp (queryChunks q1)) =
      joinSp ((queryChunks q1).map formatSql) :=
    formatSql_joinSp _ (fun c hcm => splitWs_noWs _ c hcm) hb1
  have h2 : formatSql (joinSp (queryChunks q2)) =
      joinSp ((queryChunks q2).map formatSql) :=
    formatSql_joinSp _ (fun c hcm => splitWs_noWs _ c hcm) hb2
  have hcq1 : clean_query q1 = joinSp (queryChunks q1) := rfl
  have hcq2 : clean_query q2 = joinSp (queryChunks q2) := rfl
  unfold fingerprintOf generate_query_hash normalizedOf normalize_query
  rw [hcq1, hcq2, h1, h2, hc]

/-- C1 witness: `select  1 -- x` (extra whitespace, lower-case keyword,
trailing line comment) and `SELECT 1` fingerprint identically. -/
theorem c1_fingerprint_invariance_witness :
    fingerprintOf "select  1 -- x".data = fingerprintOf "SELECT 1".data :=
  c1_fingerprint_invariance "select  1 -- x".data "SELECT 1".data
    (by decide) (by decide) (by decide)

/-! ## Sanity checks of the embedding -/

example : clean_query "select  1 -- trailing comment".data = "select 1".data := by
  decide

example : normalizedOf "select  a, 'Lit' FROM tbl /* c */".data =
    "SELECT a, 'Lit' FROM tbl".data := by decide

example : sha256Hex (utf8Bytes "abc".data) =
    "ba7816bf8f01cfea414140de5dae2223b00361a396177a9cb410ff61f20015ad".data := by
  decide

example : sha256Hex (utf8Bytes []) =
    "e3b0c44298fc1c149afbf4c8996fb92427ae41e4649b934ca495991b7852b855".data := by
  decide

example :
    (analyze_query false "SELECT name FROM users".data "analyst" "production").valid
      = true := by decide

/-! ## C7 — rate limiter fails open -/

/-- C7: for every rate-limit check during which the counter store is
unreachable (the `cache_service.get` call raises), `_check_sliding_window`
returns `allowed=True` with the full budget remaining — it neither denies
nor propagates the error. -/
theorem c7_fail_open (now : Nat) (rule : RateLimitRule) (e : String)
    (setOk : Bool) :
    (check_sliding_window now rule (Except.error e) setOk).1.allowed = true ∧
    (check_sliding_window now rule (Except.error e) setOk).1.remaining =
      rule.requests ∧
    (check_sliding_window now rule (Except.error e) setOk).1.retry_after =
      none := by
  exact ⟨rfl, rfl, rfl⟩

/-! ## C2 — sliding-window admission -/

/-- C2 counterexample: under the rule of 10 requests per 60-second window
(with the source's default `burst_allowance=1.5`), a request arriving when
the window already holds exactly 10 counted requests — at least `N` and
below `N * burst_allowance = 15` — is ALLOWED, not denied: the claim's
"(N+1)th request within the window is denied" fails. -/
theorem c2_counterexample :
    (RateLimitRule.mk 10 60 3 2 300).requests = 10 ∧
    burstLimit (RateLimitRule.mk 10 60 3 2 300) = 15 ∧
    windowTotal (pruneWindow 120 60 [(120, 10)]) = 10 ∧
    (check_sliding_window 120 (RateLimitRule.mk 10 60 3 2 300)
      (Except.ok [(120, 10)]) true).1.allowed = true := by
  exact ⟨rfl, rfl, rfl, rfl⟩

/-- C2 amended: a request is denied exactly when the pruned in-window
count has reached both `rule.requests` and the burst ceiling
`int(rule.requests * rule.burst_allowance)` (for the default allowance 1.5
that is `⌊1.5·N⌋`, so the (N+1)th through ⌊1.5·N⌋th requests are still
allowed); every denial carries `retry_after = window_seconds`. -/
theorem c2_denied_iff_at_burst_ceiling (now : Nat) (rule : RateLimitRule)
    (data : List (Nat × Nat)) (setOk : Bool) :
    ((check_sliding_window now rule (Except.ok data) setOk).1.allowed = false ↔
      (rule.requests ≤ windowTotal (pruneWindow now rule.window_seconds data) ∧
       burstLimit rule ≤ windowTotal (pruneWindow now rule.window_seconds data))) ∧
    ((check_sliding_window now rule (Except.ok data) setOk).1.allowed = false →
      (check_sliding_window now rule (Except.ok data) setOk).1.retry_after =
        some rule.window_seconds) := by
  unfold check_sliding_window
  by_cases h : rule.requests ≤ windowTotal (pruneWindow now rule.window_seconds data) ∧
      burstLimit rule ≤ windowTotal (pruneWindow now rule.window_seconds data)
  · simp [h]
  · cases setOk <;> simp [h, failOpenResult]

/-! ## C5 — approval conditions -/

/-- C5 counterexample: under the shipped configuration
(`QUERY_APPROVAL_REQUIRED = False`, config.py line 126), a query analyzed
as CRITICAL still has `requires_approval = False` — none of the claim's
three conditions triggers approval by itself. -/
theorem c5_counterexample :
    (analyze_query queryApprovalRequiredDefault
      "SELECT * FROM users WHERE a = 1 OR 1 = 1".data "analyst"
      "production").risk_level = RiskLevel.critical ∧
    (analyze_query queryApprovalRequiredDefault
      "SELECT * FROM users WHERE a = 1 OR 1 = 1".data "analyst"
      "production").requires_approval = false := by
  exact ⟨by decide, by decide⟩

/-- C5 amended: provided the `QUERY_APPROVAL_REQUIRED` setting is enabled
(its shipped default is `False`, under which approval is never required),
`_requires_approval` is true exactly when risk level is HIGH or CRITICAL,
or a data-modifying statement type targets a production environment, or
the readonly role issues a non-SELECT statement — each condition alone
suffices. -/
theorem c5_approval_iff_spec_condition (risk_level : RiskLevel)
    (query_type : QueryType) (user_role environment : String) :
    requires_approval true risk_level query_type user_role environment =
      specApprovalCondition risk_level query_type user_role environment := by
  unfold requires_approval specApprovalCondition
  cases risk_level <;> cases query_type <;>
    by_cases hp : environment = "production" <;>
      by_cases hr : user_role = "readonly" <;>
        simp [hp, hr]

/-! ## C6 — pool identity -/

/-- C6 counterexample: after a credential-only rotation (same id, host,
port and database, different password), `_get_connection_pool` returns the
PREVIOUSLY created pool, still carrying the old credentials in its
connection string — not a fresh pool for the rotated descriptor. -/
theorem c6_counterexample :
    (get_connection_pool serverA2 (get_connection_pool serverA []).2).1.connStr =
      build_connection_string serverA ∧
    build_connection_string serverA ≠ build_connection_string serverA2 := by
  exact ⟨by decide, by decide⟩

/-- C6 amended: the pool registry key is
`f"{id}_{host}_{port}_{database}"`, so pool identity ignores credentials —
whenever two descriptors agree on id, host, port and database, the second
`GetPool` returns the pool created for the first descriptor unchanged,
whatever the credentials.  (A host change does alter the key and yields a
fresh pool, as `c6_fresh_on_host_change` below confirms.) -/
theorem c6_pool_reuse (s s' : Server) (pools : List (String × Pool))
    (hid : s'.sid = s.sid) (hh : s'.host = s.host) (hp : s'.port = s.port)
    (hd : s'.database = s.database) :
    (get_connection_pool s' (get_connection_pool s pools).2).1 =
      (get_connection_pool s pools).1 := by
  have hkey : poolKey s' = poolKey s := by
    unfold poolKey
    rw [hid, hh, hp, hd]
  unfold get_connection_pool
  rw [hkey]
  match hfind : pools.find? (fun kv => kv.1 = poolKey s) with
  | some kv => simp [hfind]
  | none =>
    simp only [hfind]
    rw [List.find?_append, hfind]
    simp

/-- C6 witness: the credential rotation `serverA → serverA2` reuses the
pool created for `serverA`. -/
theorem c6_pool_reuse_witness :
    (get_connection_pool serverA2 (get_connection_pool serverA []).2).1 =
      (get_connection_pool serverA []).1 :=
  c6_pool_reuse serverA serverA2 [] (by decide) (by decide) (by decide)
    (by decide)

/-- A host rotation changes the registry key, so a fresh pool is built
from the new descriptor's connection string. -/
theorem c6_fresh_on_host_change :
    (get_connection_pool serverA3 (get_connection_pool serverA []).2).1.connStr =
      build_connection_string serverA3 := by
  decide

/-! ## C9 — analyzer totality and failure shape -/

/-- C9: `analyze_query` is total by construction (the source's catch-all
`except` returns a result dictionary for any internal error), and on every
input it either returns a valid analysis or an invalid one whose
`risk_level` is HIGH — the empty-query, whitespace-only and unparsable
branches all take the second arm. -/
theorem c9_total_invalid_is_high (approvalSetting : Bool) (q : List Char)
    (user_role environment : String) :
    (analyze_query approvalSetting q user_role environment).valid = true ∨
    ((analyze_query approvalSetting q user_role environment).valid = false ∧
     (analyze_query approvalSetting q user_role environment).risk_level =
       RiskLevel.high) := by
  unfold analyze_query
  by_cases h1 : stripEnds q = []
  · right
    simp [h1, invalidResult]
  · by_cases h2 : normalize_query (clean_query q) = []
    · right
      simp [h1, h2, invalidResult]
    · left
      simp [h1, h2]

/-! ## C3 — approval-required path of the executor -/

/-- C3 amended: for every execution request whose analysis sets
`requires_approval`, `execute_query` raises
`ValueError("Query requires approval before execution")` BEFORE the
execution record is created: no record exists (so no PENDING →
WAITING_APPROVAL transition happens — `QueryStatus` has no such member),
the catch-all handler counts a failed query and logs a `query_failed`
audit event, and the call returns `success=False` with that message as a
plain error, not a typed approval signal carrying the fingerprint.
Execution on the backend is never attempted, and cache and pools are
untouched. -/
theorem c3_approval_is_failure_without_record (analysis : AnalysisResult)
    (server : Server) (use_cache : Bool) (cache : List (String × CacheEntry))
    (pools : List (String × Pool)) (outcome : ExecOutcome)
    (hv : analysis.valid = true) (ha : analysis.requires_approval = true) :
    (execute_query_from_analysis analysis server use_cache cache pools
      outcome).1.success = false ∧
    (execute_query_from_analysis analysis server use_cache cache pools
      outcome).1.error = some "Query requires approval before execution" ∧
    (execute_query_from_analysis analysis server use_cache cache pools
      outcome).2.recordStatuses = [] ∧
    (execute_query_from_analysis analysis server use_cache cache pools
      outcome).2.backendAttempted = false ∧
    (execute_query_from_analysis analysis server use_cache cache pools
      outcome).2.failedCount = 1 ∧
    (execute_query_from_analysis analysis server use_cache cache pools
      outcome).2.auditActions = ["query_failed"] ∧
    (execute_query_from_analysis analysis server use_cache cache pools
      outcome).2.cacheAfter = cache ∧
    (execute_query_from_analysis analysis server use_cache cache pools
      outcome).2.poolsAfter = pools := by
  unfold execute_query_from_analysis
  simp [hv, ha, exceptPath]

/-- C3 witness: a no-WHERE DELETE by the readonly role on production, with
the approval setting enabled, requires approval, and the executor treats
it exactly as the amended claim states. -/
theorem c3_approval_is_failure_witness :
    (execute_query_from_analysis
      (analyze_query true "DELETE FROM orders".data "readonly" "production")
      serverA true [] [] (ExecOutcome.exc "unused")).1.success = false ∧
    (execute_query_from_analysis
      (analyze_query true "DELETE FROM orders".data "readonly" "production")
      serverA true [] [] (ExecOutcome.exc "unused")).1.error =
        some "Query requires approval before execution" ∧
    (execute_query_from_analysis
      (analyze_query true "DELETE FROM orders".data "readonly" "production")
      serverA true [] [] (ExecOutcome.exc "unused")).2.recordStatuses = [] ∧
    (execute_query_from_analysis
      (analyze_query true "DELETE FROM orders".data "readonly" "production")
      serverA true [] [] (ExecOutcome.exc "unused")).2.backendAttempted = false ∧
    (execute_query_from_analysis
      (analyze_query true "DELETE FROM orders".data "readonly" "production")
      serverA true [] [] (ExecOutcome.exc "unused")).2.failedCount = 1 ∧
    (execute_query_from_analysis
      (analyze_query true "DELETE FROM orders".data "readonly" "production")
      serverA true [] [] (ExecOutcome.exc "unused")).2.auditActions =
        ["query_failed"] ∧
    (execute_query_from_analysis
      (analyze_query true "DELETE FROM orders".data "readonly" "production")
      serverA true [] [] (ExecOutcome.exc "unused")).2.cacheAfter = [] ∧
    (execute_query_from_analysis
      (analyze_query true "DELETE FROM orders".data "readonly" "production")
      serverA true [] [] (ExecOutcome.exc "unused")).2.poolsAfter = [] :=
  c3_approval_is_failure_without_record
    (analyze_query true "DELETE FROM orders".data "readonly" "production")
    serverA true [] [] (ExecOutcome.exc "unused") (by decide) (by decide)

/-- C3 counterexample: on an approval-requiring request the execution
record is never created — no PENDING → WAITING_APPROVAL transition occurs
(the `QueryStatus` enum has no waiting-approval member at all) — and the
outcome IS recorded as a failure: `failed_queries` is incremented, a
`query_failed` audit event is logged, and the response is
`success=False`, contradicting the claim. -/
theorem c3_counterexample :
    (execute_query true "DELETE FROM orders".data "readonly" "production"
      serverA true [] [] (ExecOutcome.exc "unused")).2.recordStatuses = [] ∧
    (execute_query true "DELETE FROM orders".data "readonly" "production"
      serverA true [] [] (ExecOutcome.exc "unused")).2.failedCount = 1 ∧
    (execute_query true "DELETE FROM orders".data "readonly" "production"
      serverA true [] [] (ExecOutcome.exc "unused")).1.success = false ∧
    (execute_query true "DELETE FROM orders".data "readonly" "production"
      serverA true [] [] (ExecOutcome.exc "unused")).2.auditActions =
        ["query_failed"] := by
  exact ⟨by decide, by decide, by decide, by decide⟩

/-! ## C4 — missing WHERE on UPDATE/DELETE -/

/-- C4 counterexample: `DELETE FROM orders` — an UPDATE/DELETE with no
WHERE clause (the source's regex matches it) — analyzed for the analyst
role on production has `risk_level = LOW`: the missing-WHERE finding is a
performance issue that contributes nothing to the risk score, so the
claimed `risk_level ∈ {HIGH, CRITICAL}` fails. -/
theorem c4_counterexample :
    matchMissingWhere
      (lowerStr (normalizedOf "DELETE FROM orders".data)) = true ∧
    (analyze_query false "DELETE FROM orders".data "analyst"
      "production").risk_level = RiskLevel.low := by
  exact ⟨by decide, by decide⟩

/-- C4 amended: for every valid query matching the source's missing-WHERE
pattern `\b(update|delete)\b(?!.*\bwhere\b)`, the analysis flags a
high-severity `missing_where` PERFORMANCE issue; the risk level is
computed from the security issues alone and need not be HIGH or
CRITICAL. -/
theorem c4_missing_where_flagged (approvalSetting : Bool) (q : List Char)
    (user_role environment : String)
    (hv : (analyze_query approvalSetting q user_role environment).valid = true)
    (hm : matchMissingWhere (lowerStr (normalizedOf q)) = true) :
    Issue.mk "missing_where" "high" "missing_where" ∈
      (analyze_query approvalSetting q user_role
        environment).performance_issues := by
  by_cases h1 : stripEnds q = []
  · simp [analyze_query, h1, invalidResult] at hv
  · by_cases h2 : normalize_query (clean_query q) = []
    · simp [analyze_query, h1, h2, invalidResult] at hv
    · simp only [normalizedOf] at hm
      simp [analyze_query, h1, h2, analyze_performance, hm, List.mem_append]

/-- C4 witness: the flagged issue for `DELETE FROM orders`. -/
theorem c4_missing_where_flagged_witness :
    Issue.mk "missing_where" "high" "missing_where" ∈
      (analyze_query false "DELETE FROM orders".data "analyst"
        "production").performance_issues :=
  c4_missing_where_flagged false "DELETE FROM orders".data "analyst"
    "production" (by decide) (by decide)

/-! ## C8 — cache hit path -/

/-- C8: the claimed cache round trip never happens in the shipped code.
With a live cache entry for the fingerprint of `SELECT name FROM users`
and `useCache` enabled, `execute_query` fails while CREATING the execution
record: reading `analysis_result["metadata"]["query_hash"]` raises
`KeyError('query_hash')`, because `analyze_query`'s
`analysis_results.update(performance_analysis)` replaced the metadata
dictionary (which held `query_hash`) with the performance metadata.  The
call returns `success=False` with error `'query_hash'` and
`cached=False`; the cache entry is never returned and the backend never
touched. -/
theorem c8_cache_hit_unreachable_keyerror :
    (analyze_query false selectQuery "analyst"
      "production").metadata.find? (fun kv => kv.1 = "query_hash") = none ∧
    (execute_query false selectQuery "analyst" "production" serverA true
      selectCache [] (ExecOutcome.exc "unused")).1.success = false ∧
    (execute_query false selectQuery "analyst" "production" serverA true
      selectCache [] (ExecOutcome.exc "unused")).1.error =
        some "'query_hash'" ∧
    (execute_query false selectQuery "analyst" "production" serverA true
      selectCache [] (ExecOutcome.exc "unused")).1.cached = false ∧
    (execute_query false selectQuery "analyst" "production" serverA true
      selectCache [] (ExecOutcome.exc "unused")).2.backendAttempted = false ∧
    (execute_query false selectQuery "analyst" "production" serverA true
      selectCache [] (ExecOutcome.exc "unused")).2.poolsAfter = [] := by
  exact ⟨by decide, by decide, by decide, by decide, by decide, by decide⟩

/-! ## C10 — zero-row SELECT results are not cached -/

/-- C10: a successful SELECT execution with zero rows writes nothing to
the result cache — the cache is unchanged — and therefore an immediate
repeat of the same request (same analysis, same server, cache as left by
the first call) misses the cache and attempts the backend again, even
with `useCache` enabled.  Stated over any analysis whose metadata still
carries `query_hash` (the record-creation step requires it; see C8). -/
theorem c10_zero_row_select_not_cached (analysis : AnalysisResult)
    (server : Server) (use_cache : Bool) (cache : List (String × CacheEntry))
    (pools : List (String × Pool)) (res : ExecResult) (qh : List Char)
    (hv : analysis.valid = true) (ha : analysis.requires_approval = false)
    (hmeta : analysis.metadata.find? (fun kv => kv.1 = "query_hash") =
      some ("query_hash", MetaVal.mstr qh))
    (hmiss : cache.find? (fun kv => kv.1 = cacheKey qh server.sid) = none)
    (hs : res.success = true) (hz : res.row_count = 0) :
    (execute_query_from_analysis analysis server use_cache cache pools
      (ExecOutcome.ok res)).2.cacheAfter = cache ∧
    (execute_query_from_analysis analysis server use_cache cache pools
      (ExecOutcome.ok res)).2.backendAttempted = true ∧
    (execute_query_from_analysis analysis server use_cache
      (execute_query_from_analysis analysis server use_cache cache pools
        (ExecOutcome.ok res)).2.cacheAfter
      (execute_query_from_analysis analysis server use_cache cache pools
        (ExecOutcome.ok res)).2.poolsAfter
      (ExecOutcome.ok res)).2.backendAttempted = true := by
  have hone : ∀ pls, (execute_query_from_analysis analysis server use_cache
      cache pls (ExecOutcome.ok res)).2.cacheAfter = cache ∧
      (execute_query_from_analysis analysis server use_cache cache pls
        (ExecOutcome.ok res)).2.backendAttempted = true := by
    intro pls
    unfold execute_query_from_analysis
    simp only [hv, ha, hmeta]
    by_cases hu : use_cache = true ∧ analysis.query_type = QueryType.select
    · simp [hu, hmiss, hz, hs]
    · simp [hu, hz, hs]
  have h1 := hone pools
  refine ⟨h1.1, h1.2, ?_⟩
  rw [h1.1]
  exact (hone _).2

/-- C10 witness: a crafted analysis with `query_hash` metadata, an empty
cache, and a successful zero-row result — the cache stays empty and both
calls attempt the backend. -/
theorem c10_zero_row_select_not_cached_witness :
    (execute_query_from_analysis analysisWithHash serverA true [] []
      (ExecOutcome.ok zeroRowResult)).2.cacheAfter = [] ∧
    (execute_query_from_analysis analysisWithHash serverA true [] []
      (ExecOutcome.ok zeroRowResult)).2.backendAttempted = true ∧
    (execute_query_from_analysis analysisWithHash serverA true
      (execute_query_from_analysis analysisWithHash serverA true [] []
        (ExecOutcome.ok zeroRowResult)).2.cacheAfter
      (execute_query_from_analysis analysisWithHash serverA true [] []
        (ExecOutcome.ok zeroRowResult)).2.poolsAfter
      (ExecOutcome.ok zeroRowResult)).2.backendAttempted = true :=
  c10_zero_row_select_not_cached analysisWithHash serverA true [] []
    zeroRowResult "cafe01".data (by decide) (by decide) (by decide)
    (by decide) (by decide) (by decide)

end SQLProxyEx
